import Mathlib

/-!
# hyprlock fingerprint authentication: verification state machine

A shallow embedding of `src/auth/Fingerprint.cpp` (class `CFingerprint`).

* `m_sDBUSState` becomes the record `SDBUSState`; the object `CFingerprint` carries it
  together with the two configured strings.
* Every asynchronous D-Bus call (`callMethodAsync`, `getPropertyAsync`) is recorded in
  `pending` together with what its reply handler captured; the reply handler is a function
  of its own (`onVerifyStartReply`, ...) that `deliver` runs when the reply arrives.
* Every outward action (calls on the bus, calls into `g_pAuth` and `g_pHyprlock`) is
  appended to `trace`, in program order.
* The three synchronous bus calls (`GetDefaultDevice`, `VerifyStop`, `Release`) may throw
  `sdbus::Error`; whether they do is read from an `Env` value supplied with each input.
* `Debug::log` lines are not modelled.
-/

namespace Hyprlock

/-! ## Data model -/

/-- The enum `MatchResult` (Fingerprint.cpp, lines 19-29). -/
inductive MatchResult where
  | MATCH_INVALID
  | MATCH_NO_MATCH
  | MATCH_MATCHED
  | MATCH_RETRY
  | MATCH_SWIPE_TOO_SHORT
  | MATCH_FINGER_NOT_CENTERED
  | MATCH_REMOVE_AND_RETRY
  | MATCH_DISCONNECTED
  | MATCH_UNKNOWN_ERROR
  deriving DecidableEq

open MatchResult

/-- The constant `RETRY_MESSAGE` (line 17). -/
def RETRY_MESSAGE : String := "Could not match fingerprint. Try again."

/-- The constant `DEVICE` (line 14), the fprint device interface name. -/
def DEVICE : String := "net.reactivated.Fprint.Device"

/-- The static table `s_mapStringToTestType` (lines 31-38) at program start. -/
def s_mapStringToTestType : List (String × MatchResult) :=
  [("verify-no-match", MATCH_NO_MATCH),
   ("verify-match", MATCH_MATCHED),
   ("verify-retry-scan", MATCH_RETRY),
   ("verify-swipe-too-short", MATCH_SWIPE_TOO_SHORT),
   ("verify-finger-not-centered", MATCH_FINGER_NOT_CENTERED),
   ("verify-remove-and-retry", MATCH_REMOVE_AND_RETRY),
   ("verify-disconnected", MATCH_DISCONNECTED),
   ("verify-unknown-error", MATCH_UNKNOWN_ERROR)]

/-- The operator `std::map::operator[]`: the mapped value when the key is present; otherwise
the key is inserted with a value-initialised `MatchResult` (`MATCH_INVALID = 0`) and that
value is returned. The second component is the table afterwards. -/
def mapIndex (m : List (String × MatchResult)) (k : String) :
    MatchResult × List (String × MatchResult) :=
  match m.lookup k with
  | some v => (v, m)
  | none => (MATCH_INVALID, m ++ [(k, MATCH_INVALID)])

/-- The value of `s_mapStringToTestType[result]` (line 154). Entries that `operator[]` adds
map to `MATCH_INVALID`, which is what an absent key yields anyway, so the value read does
not depend on earlier reads (`mapIndex_grown` below); the table is therefore not threaded
through the state. -/
def matchResultOf (result : String) : MatchResult :=
  (mapIndex s_mapStringToTestType result).1

/-- The table after a sequence of `operator[]` reads. -/
def readAll (m : List (String × MatchResult)) (ks : List String) : List (String × MatchResult) :=
  ks.foldl (fun m k => (mapIndex m k).2) m

/-- Modelled from the spec: the struct behind `m_sDBUSState` is declared in
`Fingerprint.hpp`, which is not among the sources. The fields are those Fingerprint.cpp
reads or writes after `init` (`connection` and `login` are set once in `init` and assumed
valid). `device` records whether the `device` proxy pointer is non-null, `inhibitLock` the
file descriptor held (if any), `retries` is a counter taken as unbounded. -/
structure SDBUSState where
  message : String
  device : Bool
  inhibitLock : Option Nat
  abort : Bool
  done : Bool
  retries : Nat
  sleeping : Bool
  deriving DecidableEq

/-- An asynchronous bus call whose reply has not been handled yet. `verifyStart` carries the
`isRetry` value captured by its reply handler (line 218). -/
inductive AsyncCall where
  | getPreparingForSleep
  | inhibit
  | claim
  | verifyStart (isRetry : Bool)
  deriving DecidableEq

/-- An outward action of the fingerprint code. `callVerifyStart` is tagged with the
`isRetry` argument of the `startVerify` call that issued it. -/
inductive Action where
  | postActivity
  | enqueueUnlock
  | enqueueFail
  | enqueueForceUpdateTimers
  | callGetPreparingForSleep
  | callInhibit
  | callGetDefaultDevice
  | callClaim
  | callVerifyStart (isRetry : Bool)
  | callVerifyStop
  | callRelease
  deriving DecidableEq

/-- Outcome of the synchronous bus calls made while one input is handled: `true` means the
call returns normally, `false` that it throws `sdbus::Error`. -/
structure Env where
  getDefaultDeviceOk : Bool
  verifyStopOk : Bool
  releaseOk : Bool
  deriving DecidableEq

/-- The object `CFingerprint`: its state `m_sDBUSState` and the two strings read from the
configuration by the constructor (lines 40-45), together with the bookkeeping of the
embedding: the asynchronous calls awaiting their reply and the actions performed so far. -/
structure CFingerprint where
  m_sDBUSState : SDBUSState
  m_sFingerprintReady : String
  m_sFingerprintPresent : String
  pending : List AsyncCall
  trace : List Action
  deriving DecidableEq

/-- Append one outward action to the trace. -/
def emit (a : Action) (s : CFingerprint) : CFingerprint :=
  { s with trace := s.trace ++ [a] }

/-- Issue an asynchronous call: it is traced and its reply becomes pending. -/
def callAsync (a : Action) (c : AsyncCall) (s : CFingerprint) : CFingerprint :=
  { s with trace := s.trace ++ [a], pending := s.pending ++ [c] }

/-- The actions performed between state `s` and a later state `t`. -/
def newActions (s t : CFingerprint) : List Action :=
  t.trace.drop s.trace.length

/-! ## Operations -/

/-- The method `CFingerprint::init` (lines 51-81): the asynchronous read of `PreparingForSleep`
is issued; the `PrepareForSleep` subscription is `onPrepareForSleep`. -/
def init (s : CFingerprint) : CFingerprint :=
  callAsync .callGetPreparingForSleep .getPreparingForSleep s

/-- The method `CFingerprint::inhibitSleep` (lines 104-114): the call part. -/
def inhibitSleep (s : CFingerprint) : CFingerprint :=
  callAsync .callInhibit .inhibit s

/-- The reply handler inside `inhibitSleep` (lines 108-113). -/
def onInhibitReply (s : CFingerprint) (e : Option String) (fd : Nat) : CFingerprint :=
  if e.isSome then s
  else { s with m_sDBUSState := { s.m_sDBUSState with inhibitLock := some fd } }

/-- The method `CFingerprint::createDeviceProxy` (lines 116-149). On success the device proxy
is stored; its three signal subscriptions are `handleVerifyStatus`, `onPropertiesChanged`
and the log-only `VerifyFingerSelected`. -/
def createDeviceProxy (env : Env) (s : CFingerprint) : Bool × CFingerprint :=
  let s := emit .callGetDefaultDevice s
  if !env.getDefaultDeviceOk then (false, s)
  else (true, { s with m_sDBUSState := { s.m_sDBUSState with device := true } })

/-- The `PropertiesChanged` handler (lines 134-146). `fingerPresent` is the value stored
under `"finger-present"`, `none` when the key is missing (`std::out_of_range`). -/
def onPropertiesChanged (s : CFingerprint) (interface : String) (fingerPresent : Option Bool) :
    CFingerprint :=
  if interface != DEVICE || s.m_sDBUSState.done then s
  else
    match fingerPresent with
    | none => s
    | some isPresent =>
      if !isPresent then s
      else
        emit .enqueueForceUpdateTimers
          { s with m_sDBUSState := { s.m_sDBUSState with message := s.m_sFingerprintPresent } }

/-- The method `CFingerprint::claimDevice` (lines 197-207): the call part. -/
def claimDevice (s : CFingerprint) : CFingerprint :=
  callAsync .callClaim .claim s

/-- The method `CFingerprint::startVerify` (lines 209-233): the call part. The calls
`startVerify()` without argument (lines 66, 78, 204) use the default of the declaration in
`Fingerprint.hpp`, taken to be `false` (a start that is not a retry). -/
def startVerify (env : Env) (s : CFingerprint) (isRetry : Bool) : CFingerprint :=
  if !s.m_sDBUSState.device then
    let r := createDeviceProxy env s
    if !r.1 then r.2
    else claimDevice r.2
  else
    callAsync (.callVerifyStart isRetry) (.verifyStart isRetry) s

/-- The reply handler inside `startVerify` (lines 218-232). -/
def onVerifyStartReply (s : CFingerprint) (isRetry : Bool) (e : Option String) : CFingerprint :=
  let s :=
    if e.isSome then
      if isRetry then
        { s with m_sDBUSState :=
            { s.m_sDBUSState with message := "Fingerprint auth disabled (failed to restart)" } }
      else s
    else
      if isRetry then
        { s with m_sDBUSState :=
            { s.m_sDBUSState with retries := s.m_sDBUSState.retries + 1, message := RETRY_MESSAGE } }
      else
        { s with m_sDBUSState := { s.m_sDBUSState with message := s.m_sFingerprintReady } }
  emit .enqueueForceUpdateTimers s

/-- The reply handler inside `claimDevice` (lines 199-206). -/
def onClaimReply (env : Env) (s : CFingerprint) (e : Option String) : CFingerprint :=
  if e.isSome then s
  else startVerify env s false

/-- The method `CFingerprint::stopVerify` (lines 235-246). -/
def stopVerify (env : Env) (s : CFingerprint) : Bool × CFingerprint :=
  if !s.m_sDBUSState.device then (false, s)
  else
    let s := emit .callVerifyStop s
    if !env.verifyStopOk then (false, s)
    else (true, s)

/-- The method `CFingerprint::releaseDevice` (lines 248-259). -/
def releaseDevice (env : Env) (s : CFingerprint) : Bool × CFingerprint :=
  if !s.m_sDBUSState.device then (false, s)
  else
    let s := emit .callRelease s
    if !env.releaseOk then (false, s)
    else (true, s)

/-- The method `CFingerprint::terminate` (lines 99-102). -/
def terminate (env : Env) (s : CFingerprint) : CFingerprint :=
  if !s.m_sDBUSState.abort then (releaseDevice env s).2
  else s

/-- The reply handler of the `PreparingForSleep` read in `init` (lines 56-67). -/
def onPreparingForSleepReply (env : Env) (s : CFingerprint) (e : Option String)
    (preparingForSleep : Bool) : CFingerprint :=
  if e.isSome then s
  else
    let s := { s with m_sDBUSState := { s.m_sDBUSState with sleeping := preparingForSleep } }
    if s.m_sDBUSState.sleeping then s
    else startVerify env (inhibitSleep s) false

/-- The `PrepareForSleep` signal handler of `init` (lines 69-80). -/
def onPrepareForSleep (env : Env) (s : CFingerprint) (start : Bool) : CFingerprint :=
  if start then
    let s := { s with m_sDBUSState := { s.m_sDBUSState with sleeping := true } }
    let s := (stopVerify env s).2
    { s with m_sDBUSState := { s.m_sDBUSState with inhibitLock := none } }
  else
    let s := { s with m_sDBUSState := { s.m_sDBUSState with sleeping := false } }
    let s := inhibitSleep s
    startVerify env s false

/-- Set `m_sDBUSState.message`. -/
def setMessage (msg : String) (s : CFingerprint) : CFingerprint :=
  { s with m_sDBUSState := { s.m_sDBUSState with message := msg } }

/-- The `switch` of `handleVerifyStatus` (lines 158-188). Returns the state, the local
`done` and the local `authenticated`. -/
def handleSwitch (env : Env) (s : CFingerprint) (matchResult : MatchResult) (done : Bool) :
    CFingerprint × Bool × Bool :=
  match matchResult with
  | MATCH_INVALID => (s, done, false)
  | MATCH_NO_MATCH =>
    let s := (stopVerify env s).2
    if s.m_sDBUSState.retries ≥ 3 then
      (setMessage "Fingerprint auth disabled (too many failed attempts)" s, done, false)
    else
      let s := startVerify env s true
      (setMessage "Fingerprint not matched" s, false, false)
  | MATCH_UNKNOWN_ERROR =>
    let s := (stopVerify env s).2
    (setMessage "Fingerprint auth disabled (unknown error)" s, done, false)
  | MATCH_MATCHED =>
    let s := (stopVerify env s).2
    let s := setMessage "" s
    (emit .enqueueUnlock s, done, true)
  | MATCH_RETRY => (setMessage "Please retry fingerprint scan" s, done, false)
  | MATCH_SWIPE_TOO_SHORT => (setMessage "Swipe too short - try again" s, done, false)
  | MATCH_FINGER_NOT_CENTERED => (setMessage "Finger not centered - try again" s, done, false)
  | MATCH_REMOVE_AND_RETRY => (setMessage "Remove your finger and try again" s, done, false)
  | MATCH_DISCONNECTED =>
    let s := setMessage "Fingerprint device disconnected" s
    ({ s with m_sDBUSState := { s.m_sDBUSState with abort := true } }, done, false)

/-- The method `CFingerprint::handleVerifyStatus` (lines 151-195). -/
def handleVerifyStatus (env : Env) (s : CFingerprint) (result : String) (done : Bool) :
    CFingerprint :=
  let s := emit .postActivity s
  let matchResult := matchResultOf result
  if s.m_sDBUSState.sleeping && matchResult != MATCH_DISCONNECTED then s
  else
    let r := handleSwitch env s matchResult done
    let s := r.1
    let done := r.2.1
    let authenticated := r.2.2
    let s := if !authenticated then emit .enqueueFail s else s
    if done || s.m_sDBUSState.abort then
      { s with m_sDBUSState := { s.m_sDBUSState with done := true } }
    else s

/-! ## Inputs and their delivery -/

/-- What the event loop can hand to the fingerprint code after `init`: replies to its
asynchronous calls and the signals it subscribed to. An error reply is `some what`. -/
inductive Event where
  | preparingForSleepReply (e : Option String) (preparingForSleep : Bool)
  | prepareForSleep (start : Bool)
  | inhibitReply (e : Option String) (fd : Nat)
  | claimReply (e : Option String)
  | verifyStartReply (isRetry : Bool) (e : Option String)
  | verifyFingerSelected (finger : String)
  | verifyStatus (result : String) (done : Bool)
  | propertiesChanged (interface : String) (fingerPresent : Option Bool)
  deriving DecidableEq

/-- Run the handler of a reply to the pending call `c`; a reply nobody waits for does not
exist and leaves the state as it is. -/
def onReply (c : AsyncCall) (s : CFingerprint) (k : CFingerprint → CFingerprint) : CFingerprint :=
  if c ∈ s.pending then k { s with pending := s.pending.erase c } else s

/-- Dispatch of one input. Device signals are only subscribed once the device proxy exists
(lines 129-146). -/
def deliver (env : Env) (s : CFingerprint) : Event → CFingerprint
  | .preparingForSleepReply e v =>
    onReply .getPreparingForSleep s (fun s => onPreparingForSleepReply env s e v)
  | .prepareForSleep start => onPrepareForSleep env s start
  | .inhibitReply e fd => onReply .inhibit s (fun s => onInhibitReply s e fd)
  | .claimReply e => onReply .claim s (fun s => onClaimReply env s e)
  | .verifyStartReply isRetry e =>
    onReply (.verifyStart isRetry) s (fun s => onVerifyStartReply s isRetry e)
  | .verifyFingerSelected _ => s
  | .verifyStatus result done =>
    if s.m_sDBUSState.device then handleVerifyStatus env s result done else s
  | .propertiesChanged interface fingerPresent =>
    if s.m_sDBUSState.device then onPropertiesChanged s interface fingerPresent else s

/-- Deliver a sequence of inputs in order. -/
def run (s : CFingerprint) : List (Env × Event) → CFingerprint
  | [] => s
  | (env, ev) :: rest => run (deliver env s ev) rest

/-- Handle a sequence of verify-status signals in order. -/
def handleAll (s : CFingerprint) : List (Env × String × Bool) → CFingerprint
  | [] => s
  | (env, result, done) :: rest => handleAll (handleVerifyStatus env s result done) rest

/-! ## Actions of the operations, as lists -/

/-- The actions of `stopVerify`. -/
def stopActions (s : CFingerprint) : List Action :=
  if s.m_sDBUSState.device then [.callVerifyStop] else []

/-- The actions of `startVerify`. -/
def startActions (env : Env) (s : CFingerprint) (isRetry : Bool) : List Action :=
  if s.m_sDBUSState.device then [.callVerifyStart isRetry]
  else if env.getDefaultDeviceOk then [.callGetDefaultDevice, .callClaim]
  else [.callGetDefaultDevice]

/-- The asynchronous calls left pending by `startVerify`. -/
def startPending (env : Env) (s : CFingerprint) (isRetry : Bool) : List AsyncCall :=
  if s.m_sDBUSState.device then [.verifyStart isRetry]
  else if env.getDefaultDeviceOk then [.claim]
  else []

/-- The actions of the `switch` in `handleVerifyStatus`. -/
def switchActions (env : Env) (s : CFingerprint) : MatchResult → List Action
  | MATCH_NO_MATCH =>
    stopActions s ++ (if s.m_sDBUSState.retries ≥ 3 then [] else startActions env s true)
  | MATCH_UNKNOWN_ERROR => stopActions s
  | MATCH_MATCHED => stopActions s ++ [.enqueueUnlock]
  | _ => []

/-- The actions of `handleVerifyStatus`. -/
def statusActions (env : Env) (s : CFingerprint) (result : String) : List Action :=
  .postActivity ::
    (if s.m_sDBUSState.sleeping && matchResultOf result != MATCH_DISCONNECTED then []
     else switchActions env s (matchResultOf result) ++
       (if matchResultOf result = MATCH_MATCHED then [] else [.enqueueFail]))

/-! ## Conditions on input sequences -/

/-- Number of retry `VerifyStart` calls whose reply has not been handled yet. -/
def retryStartsInFlight (s : CFingerprint) : Nat :=
  s.pending.count (.verifyStart true)

/-- Whether the input is a verify-status signal carrying "verify-no-match". -/
def isNoMatch : Event → Bool
  | .verifyStatus result _ => result == "verify-no-match"
  | _ => false

/-- An input sequence in which no "verify-no-match" signal is delivered while the reply to
a retry `VerifyStart` is still outstanding. -/
def orderly (s : CFingerprint) : List (Env × Event) → Bool
  | [] => true
  | (env, ev) :: rest =>
    !(isNoMatch ev && decide (0 < retryStartsInFlight s)) && orderly (deliver env s ev) rest

/-- A reply that arrives out of step with the sleep state: a successful `Inhibit` reply
delivered while `sleeping` is true, or a `PreparingForSleep` value of true delivered when
the inhibitor is already held. -/
def lateReply (s : CFingerprint) : Event → Bool
  | .inhibitReply none _ => s.m_sDBUSState.sleeping
  | .preparingForSleepReply none true => s.m_sDBUSState.inhibitLock.isSome
  | _ => false

/-- An input sequence without any `lateReply`. -/
def timely (s : CFingerprint) : List (Env × Event) → Bool
  | [] => true
  | (env, ev) :: rest => !lateReply s ev && timely (deliver env s ev) rest

/-! ## Concrete sessions and input sequences -/

/-- An environment in which every synchronous bus call succeeds. -/
def envOk : Env := { getDefaultDeviceOk := true, verifyStopOk := true, releaseOk := true }

/-- A session right after construction: no device proxy, no inhibitor, all flags clear,
no failed attempt counted, nothing sent yet. -/
def newSession : CFingerprint :=
  { m_sDBUSState :=
      { message := "", device := false, inhibitLock := none, abort := false, done := false,
        retries := 0, sleeping := false }
    m_sFingerprintReady := "Scan fingerprint to unlock"
    m_sFingerprintPresent := "Scanning fingerprint"
    pending := []
    trace := [] }

/-- A session with a claimed device, awake, nothing pending, no attempt made yet. -/
def exampleSession : CFingerprint :=
  { m_sDBUSState :=
      { message := "", device := true, inhibitLock := none, abort := false, done := false,
        retries := 0, sleeping := false }
    m_sFingerprintReady := "Scan fingerprint to unlock"
    m_sFingerprintPresent := "Scanning fingerprint"
    pending := []
    trace := [] }

/-- The session `exampleSession` while the system sleeps. -/
def exampleSleeping : CFingerprint :=
  { exampleSession with
    m_sDBUSState := { exampleSession.m_sDBUSState with sleeping := true } }

/-- A regular start-up after `init`: the system is awake, the inhibitor is granted (fd 7),
the device is found and claimed, and the first `VerifyStart` succeeds. -/
def startup : List (Env × Event) :=
  [(envOk, .preparingForSleepReply none false),
   (envOk, .inhibitReply none 7),
   (envOk, .claimReply none),
   (envOk, .verifyStartReply false none)]

/-- Four "verify-no-match" signals arrive before any of the four retry `VerifyStart`
replies, which then all report success. -/
def overrun : List (Env × Event) :=
  [(envOk, .verifyStatus "verify-no-match" true),
   (envOk, .verifyStatus "verify-no-match" true),
   (envOk, .verifyStatus "verify-no-match" true),
   (envOk, .verifyStatus "verify-no-match" true),
   (envOk, .verifyStartReply true none),
   (envOk, .verifyStartReply true none),
   (envOk, .verifyStartReply true none),
   (envOk, .verifyStartReply true none)]

/-- Four "verify-no-match" signals, each retry `VerifyStart` reply reporting success before
the next signal. -/
def fourNoMatch (env : Env) (d1 d2 d3 d4 : Bool) : List (Env × Event) :=
  [(env, .verifyStatus "verify-no-match" d1),
   (env, .verifyStartReply true none),
   (env, .verifyStatus "verify-no-match" d2),
   (env, .verifyStartReply true none),
   (env, .verifyStatus "verify-no-match" d3),
   (env, .verifyStartReply true none),
   (env, .verifyStatus "verify-no-match" d4)]

/-- The session after a regular start-up followed by a "verify-disconnected" signal. -/
def abortedSession : CFingerprint :=
  run (init newSession) (startup ++ [(envOk, .verifyStatus "verify-disconnected" true)])

/-- The system is awake at `init`, then begins to sleep before the `Inhibit` reply, which
arrives during sleep and grants fd 7. -/
def sleepRace : List (Env × Event) :=
  [(envOk, .preparingForSleepReply none false),
   (envOk, .prepareForSleep true),
   (envOk, .inhibitReply none 7)]

/-- A sleep-begin signal, a wake signal whose `Inhibit` reply (fd 9) arrives before
anything else, and a second sleep-begin signal. -/
def sleepCycle : List (Env × Event) :=
  [(envOk, .prepareForSleep true),
   (envOk, .prepareForSleep false),
   (envOk, .inhibitReply none 9),
   (envOk, .prepareForSleep true)]

/-! ## The status table -/

theorem lookup_cons_string (k a : String) (v : MatchResult) (m : List (String × MatchResult)) :
    List.lookup k ((a, v) :: m) = if k = a then some v else List.lookup k m := by
  by_cases h : k = a
  · subst h; simp [List.lookup]
  · have : (k == a) = false := by simpa using h
    simp [List.lookup, this, h]

theorem matchResultOf_eq (r : String) :
    matchResultOf r =
      if r = "verify-no-match" then MATCH_NO_MATCH
      else if r = "verify-match" then MATCH_MATCHED
      else if r = "verify-retry-scan" then MATCH_RETRY
      else if r = "verify-swipe-too-short" then MATCH_SWIPE_TOO_SHORT
      else if r = "verify-finger-not-centered" then MATCH_FINGER_NOT_CENTERED
      else if r = "verify-remove-and-retry" then MATCH_REMOVE_AND_RETRY
      else if r = "verify-disconnected" then MATCH_DISCONNECTED
      else if r = "verify-unknown-error" then MATCH_UNKNOWN_ERROR
      else MATCH_INVALID := by
  unfold matchResultOf mapIndex s_mapStringToTestType
  simp only [lookup_cons_string, List.lookup_nil]
  split_ifs <;> rfl

theorem matchResultOf_matched (r : String) :
    matchResultOf r = MATCH_MATCHED ↔ r = "verify-match" := by
  rw [matchResultOf_eq]
  constructor
  · intro h
    split_ifs at h
    assumption
  · rintro rfl; decide

theorem matchResultOf_disconnected (r : String) :
    matchResultOf r = MATCH_DISCONNECTED ↔ r = "verify-disconnected" := by
  rw [matchResultOf_eq]
  constructor
  · intro h
    split_ifs at h
    assumption
  · rintro rfl; decide

theorem matchResultOf_no_match (r : String) :
    matchResultOf r = MATCH_NO_MATCH ↔ r = "verify-no-match" := by
  rw [matchResultOf_eq]
  constructor
  · intro h
    split_ifs at h
    assumption
  · rintro rfl; decide

theorem mapIndex_fst (m : List (String × MatchResult)) (k : String) :
    (mapIndex m k).1 = (m.lookup k).getD MATCH_INVALID := by
  unfold mapIndex
  cases h : m.lookup k <;> simp

theorem lookup_append_invalid (m : List (String × MatchResult)) (k j : String) :
    ((m ++ [(j, MATCH_INVALID)]).lookup k).getD MATCH_INVALID
      = (m.lookup k).getD MATCH_INVALID := by
  induction m with
  | nil =>
    by_cases h : k = j
    · subst h; simp [List.lookup]
    · have : (k == j) = false := by simpa using h
      simp [List.lookup, this]
  | cons p m ih =>
    obtain ⟨a, v⟩ := p
    by_cases h : k = a
    · subst h; simp [List.lookup]
    · have : (k == a) = false := by simpa using h
      simpa [List.lookup, this] using ih

theorem mapIndex_snd_read (m : List (String × MatchResult)) (j k : String) :
    (mapIndex (mapIndex m j).2 k).1 = (mapIndex m k).1 := by
  rw [mapIndex_fst, mapIndex_fst]
  unfold mapIndex
  cases h : m.lookup j with
  | some v => simp
  | none => simpa using lookup_append_invalid m k j

/-- Reading `s_mapStringToTestType[k]` yields the same value whatever keys were read before. -/
theorem mapIndex_grown (ks : List String) (k : String) :
    (mapIndex (readAll s_mapStringToTestType ks) k).1 = matchResultOf k := by
  unfold matchResultOf
  generalize s_mapStringToTestType = m
  induction ks generalizing m with
  | nil => rfl
  | cons j ks ih =>
    show (mapIndex (readAll (mapIndex m j).2 ks) k).1 = _
    rw [ih, mapIndex_snd_read]


/-! ## Basic facts about the operations -/

theorem newActions_of_trace_eq {s t : CFingerprint} {l : List Action}
    (h : t.trace = s.trace ++ l) : newActions s t = l := by
  simp [newActions, h]

@[simp]
theorem emit_trace (a : Action) (s : CFingerprint) :
    (emit a s).trace = s.trace ++ [a] := rfl

@[simp]
theorem emit_state (a : Action) (s : CFingerprint) :
    (emit a s).m_sDBUSState = s.m_sDBUSState := rfl

@[simp]
theorem emit_pending (a : Action) (s : CFingerprint) :
    (emit a s).pending = s.pending := rfl

@[simp]
theorem setMessage_trace (m : String) (s : CFingerprint) :
    (setMessage m s).trace = s.trace := rfl

@[simp]
theorem setMessage_pending (m : String) (s : CFingerprint) :
    (setMessage m s).pending = s.pending := rfl

@[simp]
theorem setMessage_state (m : String) (s : CFingerprint) :
    (setMessage m s).m_sDBUSState = { s.m_sDBUSState with message := m } := rfl

@[simp]
theorem stopVerify_trace (env : Env) (s : CFingerprint) :
    (stopVerify env s).2.trace = s.trace ++ stopActions s := by
  unfold stopVerify stopActions
  cases s.m_sDBUSState.device <;> cases env.verifyStopOk <;> simp

@[simp]
theorem stopVerify_state (env : Env) (s : CFingerprint) :
    (stopVerify env s).2.m_sDBUSState = s.m_sDBUSState := by
  unfold stopVerify
  cases s.m_sDBUSState.device <;> cases env.verifyStopOk <;> simp

@[simp]
theorem stopVerify_pending (env : Env) (s : CFingerprint) :
    (stopVerify env s).2.pending = s.pending := by
  unfold stopVerify
  cases s.m_sDBUSState.device <;> cases env.verifyStopOk <;> simp

@[simp]
theorem startVerify_trace (env : Env) (s : CFingerprint) (isRetry : Bool) :
    (startVerify env s isRetry).trace = s.trace ++ startActions env s isRetry := by
  unfold startVerify createDeviceProxy claimDevice callAsync emit startActions
  cases s.m_sDBUSState.device <;> cases env.getDefaultDeviceOk <;> simp

@[simp]
theorem startVerify_pending (env : Env) (s : CFingerprint) (isRetry : Bool) :
    (startVerify env s isRetry).pending = s.pending ++ startPending env s isRetry := by
  unfold startVerify createDeviceProxy claimDevice callAsync emit startPending
  cases s.m_sDBUSState.device <;> cases env.getDefaultDeviceOk <;> simp

@[simp]
theorem startVerify_state (env : Env) (s : CFingerprint) (isRetry : Bool) :
    (startVerify env s isRetry).m_sDBUSState =
      { s.m_sDBUSState with
        device := s.m_sDBUSState.device || env.getDefaultDeviceOk } := by
  obtain ⟨⟨m, dv, il, ab, dn, rt, sl⟩, rd, pr, pe, tr⟩ := s
  cases dv <;> cases h : env.getDefaultDeviceOk <;>
    simp [startVerify, createDeviceProxy, claimDevice, callAsync, emit, h]

theorem stopActions_of_state {s t : CFingerprint} (h : t.m_sDBUSState = s.m_sDBUSState) :
    stopActions t = stopActions s := by
  simp [stopActions, h]

theorem startActions_of_state {s t : CFingerprint} (env : Env) (r : Bool)
    (h : t.m_sDBUSState = s.m_sDBUSState) : startActions env t r = startActions env s r := by
  simp [startActions, h]

theorem startPending_of_state {s t : CFingerprint} (env : Env) (r : Bool)
    (h : t.m_sDBUSState = s.m_sDBUSState) : startPending env t r = startPending env s r := by
  simp [startPending, h]

/-! ## Handling one verify-status signal -/

theorem handleSwitch_trace (env : Env) (s : CFingerprint) (mr : MatchResult) (done : Bool) :
    (handleSwitch env s mr done).1.trace = s.trace ++ switchActions env s mr := by
  cases mr <;> simp [handleSwitch, switchActions]
  · split <;> simp [startActions_of_state env true (stopVerify_state env s)]
  
theorem handleSwitch_authenticated (env : Env) (s : CFingerprint) (mr : MatchResult)
    (done : Bool) : (handleSwitch env s mr done).2.2 = decide (mr = MATCH_MATCHED) := by
  cases mr <;> simp [handleSwitch]
  · split <;> rfl

theorem handleVerifyStatus_trace (env : Env) (s : CFingerprint) (result : String)
    (done : Bool) :
    (handleVerifyStatus env s result done).trace = s.trace ++ statusActions env s result := by
  unfold handleVerifyStatus statusActions
  simp only [emit_state]
  split
  · simp
  · have hsa : ∀ mr, switchActions env (emit .postActivity s) mr
        = switchActions env s mr := by
      intro mr
      cases mr <;>
        simp [switchActions, stopActions_of_state (emit_state .postActivity s),
          startActions_of_state env true (emit_state .postActivity s)]
    simp only [handleSwitch_authenticated]
    by_cases hm : matchResultOf result = MATCH_MATCHED <;>
      simp [hm, apply_ite CFingerprint.trace, handleSwitch_trace, hsa]


theorem handleSwitch_fields (env : Env) (s : CFingerprint) (mr : MatchResult) (done : Bool) :
    (handleSwitch env s mr done).1.m_sDBUSState.retries = s.m_sDBUSState.retries ∧
    (handleSwitch env s mr done).1.m_sDBUSState.sleeping = s.m_sDBUSState.sleeping ∧
    (handleSwitch env s mr done).1.m_sDBUSState.inhibitLock = s.m_sDBUSState.inhibitLock ∧
    (handleSwitch env s mr done).1.m_sDBUSState.done = s.m_sDBUSState.done ∧
    (handleSwitch env s mr done).1.m_sDBUSState.abort
      = (s.m_sDBUSState.abort || decide (mr = MATCH_DISCONNECTED)) := by
  cases mr <;> simp [handleSwitch]
  · split <;> simp

theorem handleVerifyStatus_fields (env : Env) (s : CFingerprint) (result : String)
    (done : Bool) :
    (handleVerifyStatus env s result done).m_sDBUSState.retries = s.m_sDBUSState.retries ∧
    (handleVerifyStatus env s result done).m_sDBUSState.sleeping = s.m_sDBUSState.sleeping ∧
    (handleVerifyStatus env s result done).m_sDBUSState.inhibitLock
      = s.m_sDBUSState.inhibitLock ∧
    (s.m_sDBUSState.done = true →
      (handleVerifyStatus env s result done).m_sDBUSState.done = true) ∧
    (s.m_sDBUSState.abort = true →
      (handleVerifyStatus env s result done).m_sDBUSState.abort = true) := by
  have h := handleSwitch_fields env (emit .postActivity s) (matchResultOf result) done
  simp only [emit_state] at h
  obtain ⟨h1, h2, h3, h4, h5⟩ := h
  unfold handleVerifyStatus
  simp only [emit_state]
  split
  · simp
  · split <;> split <;> simp [h1, h2, h3, h4, h5] <;> tauto

theorem handleSwitch_pending (env : Env) (s : CFingerprint) (mr : MatchResult) (done : Bool) :
    (handleSwitch env s mr done).1.pending = s.pending ++
      (if mr = MATCH_NO_MATCH ∧ s.m_sDBUSState.retries < 3 then startPending env s true
       else []) := by
  cases mr <;> simp [handleSwitch]
  · split
    · have : ¬ s.m_sDBUSState.retries < 3 := by omega
      simp [this]
    · have : s.m_sDBUSState.retries < 3 := by omega
      simp [this, startPending_of_state env true (stopVerify_state env s)]

theorem handleVerifyStatus_pending (env : Env) (s : CFingerprint) (result : String)
    (done : Bool) :
    (handleVerifyStatus env s result done).pending = s.pending ++
      (if (s.m_sDBUSState.sleeping && matchResultOf result != MATCH_DISCONNECTED) then []
       else if matchResultOf result = MATCH_NO_MATCH ∧ s.m_sDBUSState.retries < 3 then
         startPending env s true
       else []) := by
  have h := handleSwitch_pending env (emit .postActivity s) (matchResultOf result) done
  simp only [emit_state, emit_pending,
    startPending_of_state env true (emit_state .postActivity s)] at h
  unfold handleVerifyStatus
  simp only [emit_state]
  split
  · simp
  · split <;> split <;> simp [h]

theorem stopVerify_snd (env : Env) (s : CFingerprint) :
    (stopVerify env s).2 = if s.m_sDBUSState.device then emit .callVerifyStop s else s := by
  unfold stopVerify
  cases s.m_sDBUSState.device <;> cases env.verifyStopOk <;> simp

theorem handleVerifyStatus_matched (env : Env) (s : CFingerprint) (done : Bool)
    (hs : s.m_sDBUSState.sleeping = false) :
    handleVerifyStatus env s "verify-match" done =
      { s with
        m_sDBUSState := { s.m_sDBUSState with
          message := "", done := done || s.m_sDBUSState.abort || s.m_sDBUSState.done }
        trace := s.trace ++ [.postActivity] ++ stopActions s ++ [.enqueueUnlock] } := by
  have hm : matchResultOf "verify-match" = MATCH_MATCHED := by decide
  obtain ⟨⟨m, dv, il, ab, dn, rt, sl⟩, rd, pr, pe, tr⟩ := s
  simp only at hs
  subst hs
  cases dv <;> cases done <;> cases ab <;> cases dn <;>
    simp [handleVerifyStatus, handleSwitch, stopVerify_snd, stopActions, emit, setMessage, hm]

theorem handleVerifyStatus_sleeping (env : Env) (s : CFingerprint) (result : String)
    (done : Bool) (hs : s.m_sDBUSState.sleeping = true)
    (hr : result ≠ "verify-disconnected") :
    handleVerifyStatus env s result done = emit .postActivity s := by
  have hr2 : matchResultOf result ≠ MATCH_DISCONNECTED :=
    fun h => hr ((matchResultOf_disconnected result).1 h)
  simp [handleVerifyStatus, emit, hs, hr2]

theorem handleVerifyStatus_disconnected (env : Env) (s : CFingerprint) (done : Bool) :
    handleVerifyStatus env s "verify-disconnected" done =
      { s with
        m_sDBUSState := { s.m_sDBUSState with
          message := "Fingerprint device disconnected", abort := true, done := true }
        trace := s.trace ++ [.postActivity, .enqueueFail] } := by
  have hm : matchResultOf "verify-disconnected" = MATCH_DISCONNECTED := by decide
  simp [handleVerifyStatus, handleSwitch, emit, setMessage, hm]

theorem stopActions_count (s : CFingerprint) (a : Action) (h : a ≠ .callVerifyStop) :
    (stopActions s).count a = 0 := by
  unfold stopActions
  split
  · exact List.count_eq_zero.2 (by simpa using h)
  · rfl

theorem startActions_count_unlock (env : Env) (s : CFingerprint) (r : Bool) :
    (startActions env s r).count .enqueueUnlock = 0 := by
  unfold startActions
  split
  · simp
  · split <;> simp

theorem startActions_count_fail (env : Env) (s : CFingerprint) (r : Bool) :
    (startActions env s r).count .enqueueFail = 0 := by
  unfold startActions
  split
  · simp
  · split <;> simp

theorem switchActions_count_unlock (env : Env) (s : CFingerprint) (mr : MatchResult) :
    (switchActions env s mr).count .enqueueUnlock = if mr = MATCH_MATCHED then 1 else 0 := by
  cases mr <;>
    simp [switchActions, stopActions_count, apply_ite (List.count Action.enqueueUnlock),
      startActions_count_unlock]

theorem switchActions_count_fail (env : Env) (s : CFingerprint) (mr : MatchResult) :
    (switchActions env s mr).count .enqueueFail = 0 := by
  cases mr <;>
    simp [switchActions, stopActions_count, apply_ite (List.count Action.enqueueFail),
      startActions_count_fail]

theorem statusActions_count_unlock (env : Env) (s : CFingerprint) (result : String) :
    (statusActions env s result).count .enqueueUnlock =
      if (s.m_sDBUSState.sleeping && matchResultOf result != MATCH_DISCONNECTED) then 0
      else if matchResultOf result = MATCH_MATCHED then 1 else 0 := by
  unfold statusActions
  split
  · simp
  · rw [List.count_cons, List.count_append, switchActions_count_unlock]
    split <;> simp

theorem statusActions_count_fail (env : Env) (s : CFingerprint) (result : String) :
    (statusActions env s result).count .enqueueFail =
      if (s.m_sDBUSState.sleeping && matchResultOf result != MATCH_DISCONNECTED) then 0
      else if matchResultOf result = MATCH_MATCHED then 0 else 1 := by
  unfold statusActions
  split
  · simp
  · rw [List.count_cons, List.count_append, switchActions_count_fail]
    split <;> simp

/-! ## The claims about one verify-status signal -/

/-- C1. Single success path of `handleVerifyStatus`: in every state, for every status string
and done flag, `enqueueUnlock` is among the actions of the call only if the string is
exactly "verify-match"; and in every non-sleeping state a "verify-match" status runs
`stopVerify` (one `VerifyStop` call once a device proxy exists), sets the message to the
empty string, requests unlock exactly once and reports no failure. -/
theorem handleVerifyStatus_single_success_path (env : Env) (s : CFingerprint)
    (result : String) (done : Bool) :
    (Action.enqueueUnlock ∈ newActions s (handleVerifyStatus env s result done) →
      result = "verify-match") ∧
    (s.m_sDBUSState.sleeping = false → result = "verify-match" →
      (handleVerifyStatus env s result done).m_sDBUSState.message = "" ∧
      newActions s (handleVerifyStatus env s result done) =
        [Action.postActivity] ++ newActions s (stopVerify env s).2 ++ [Action.enqueueUnlock] ∧
      (s.m_sDBUSState.device = true →
        (newActions s (handleVerifyStatus env s result done)).count .callVerifyStop = 1) ∧
      (newActions s (handleVerifyStatus env s result done)).count .enqueueUnlock = 1 ∧
      (newActions s (handleVerifyStatus env s result done)).count .enqueueFail = 0) := by
  have hna := newActions_of_trace_eq (handleVerifyStatus_trace env s result done)
  constructor
  · intro h
    rw [hna] at h
    have hc := statusActions_count_unlock env s result
    have hpos : 0 < (statusActions env s result).count .enqueueUnlock :=
      List.count_pos_iff.2 h
    rw [hc] at hpos
    split at hpos
    · omega
    · split at hpos
      · exact (matchResultOf_matched result).1 ‹_›
      · omega
  · rintro hs rfl
    have hm : matchResultOf "verify-match" = MATCH_MATCHED := by decide
    have hst : newActions s (stopVerify env s).2 = stopActions s :=
      newActions_of_trace_eq (stopVerify_trace env s)
    rw [hna, hst, statusActions_count_unlock, statusActions_count_fail]
    refine ⟨?_, ?_, ?_, ?_, ?_⟩
    · rw [handleVerifyStatus_matched env s done hs]
    · simp [statusActions, switchActions, hs, hm]
    · intro hd
      simp [statusActions, switchActions, stopActions, hs, hm, hd]
    · simp [hs, hm]
    · simp [hs, hm]

/-- C1 at a concrete input: the awake example session receives "verify-match". -/
theorem handleVerifyStatus_single_success_path_witness :
    exampleSession.m_sDBUSState.sleeping = false ∧
    (handleVerifyStatus envOk exampleSession "verify-match" true).m_sDBUSState.message = "" ∧
    newActions exampleSession (handleVerifyStatus envOk exampleSession "verify-match" true) =
      [Action.postActivity] ++ newActions exampleSession (stopVerify envOk exampleSession).2
        ++ [Action.enqueueUnlock] :=
  ⟨by decide,
   ((handleVerifyStatus_single_success_path envOk exampleSession "verify-match" true).2
      (by decide) rfl).1,
   ((handleVerifyStatus_single_success_path envOk exampleSession "verify-match" true).2
      (by decide) rfl).2.1⟩

/-- C2. Sleep gate: in every state with `sleeping = true`, after any sequence of
verify-status signals none of which carries "verify-disconnected" (any done flags), the
whole of `m_sDBUSState` (message, retries, done, abort, ...) and the pending calls are
unchanged, and the only actions performed are the `postActivity` calls, one per signal:
no `VerifyStop` and no `VerifyStart` is issued. -/
theorem handleVerifyStatus_sleep_gate (s : CFingerprint) (evs : List (Env × String × Bool))
    (hs : s.m_sDBUSState.sleeping = true)
    (hr : ∀ e ∈ evs, e.2.1 ≠ "verify-disconnected") :
    (handleAll s evs).m_sDBUSState = s.m_sDBUSState ∧
    (handleAll s evs).pending = s.pending ∧
    newActions s (handleAll s evs) = List.replicate evs.length Action.postActivity ∧
    Action.callVerifyStop ∉ newActions s (handleAll s evs) ∧
    (∀ r, Action.callVerifyStart r ∉ newActions s (handleAll s evs)) := by
  have key : ∀ (evs : List (Env × String × Bool)) (s : CFingerprint),
      s.m_sDBUSState.sleeping = true → (∀ e ∈ evs, e.2.1 ≠ "verify-disconnected") →
      (handleAll s evs).m_sDBUSState = s.m_sDBUSState ∧
      (handleAll s evs).pending = s.pending ∧
      (handleAll s evs).trace = s.trace ++ List.replicate evs.length Action.postActivity := by
    intro evs
    induction evs with
    | nil => intro s _ _; simp [handleAll]
    | cons e rest ih =>
      intro s hs hr
      obtain ⟨env, result, done⟩ := e
      have h1 := handleVerifyStatus_sleeping env s result done hs
        (hr (env, result, done) (List.mem_cons_self _ _))
      have h2 := ih (emit .postActivity s) (by simpa using hs)
        (fun e he => hr e (List.mem_cons_of_mem _ he))
      simp only [handleAll, h1]
      refine ⟨by simpa using h2.1, by simpa using h2.2.1, ?_⟩
      rw [h2.2.2]
      simp [List.replicate_succ]
  obtain ⟨k1, k2, k3⟩ := key evs s hs hr
  have hna := newActions_of_trace_eq k3
  refine ⟨k1, k2, hna, ?_, ?_⟩
  · rw [hna]; intro h; cases List.eq_of_mem_replicate h
  · intro r; rw [hna]; intro h; cases List.eq_of_mem_replicate h

/-- C2 at a concrete input: a match and a no-match arrive while the example session sleeps. -/
theorem handleVerifyStatus_sleep_gate_witness :
    (handleAll exampleSleeping
        [(envOk, "verify-match", true), (envOk, "verify-no-match", true)]).m_sDBUSState
      = exampleSleeping.m_sDBUSState :=
  (handleVerifyStatus_sleep_gate exampleSleeping
    [(envOk, "verify-match", true), (envOk, "verify-no-match", true)]
    (by decide) (by decide)).1

/-- C3, as the spec states it, fails: the sleeping example session receives "verify-match"
and neither a success nor a failure is reported. -/
theorem report_accounting_counterexample :
    exampleSleeping.m_sDBUSState.sleeping = true ∧
    (newActions exampleSleeping
      (handleVerifyStatus envOk exampleSleeping "verify-match" true)).count .enqueueUnlock = 0 ∧
    (newActions exampleSleeping
      (handleVerifyStatus envOk exampleSleeping "verify-no-match" true)).count .enqueueFail = 0 := by
  decide

/-- C3, amended. In every non-sleeping state a "verify-match" status gives exactly one
`enqueueUnlock` and no `enqueueFail`, and every other status string gives exactly one
`enqueueFail` and no `enqueueUnlock`. In a sleeping state "verify-disconnected" gives exactly
one `enqueueFail` and no `enqueueUnlock`, and every other status gives neither. -/
theorem handleVerifyStatus_report_accounting (env : Env) (s : CFingerprint)
    (result : String) (done : Bool) :
    (s.m_sDBUSState.sleeping = false →
      (result = "verify-match" →
        (newActions s (handleVerifyStatus env s result done)).count .enqueueUnlock = 1 ∧
        (newActions s (handleVerifyStatus env s result done)).count .enqueueFail = 0) ∧
      (result ≠ "verify-match" →
        (newActions s (handleVerifyStatus env s result done)).count .enqueueUnlock = 0 ∧
        (newActions s (handleVerifyStatus env s result done)).count .enqueueFail = 1)) ∧
    (s.m_sDBUSState.sleeping = true →
      (result = "verify-disconnected" →
        (newActions s (handleVerifyStatus env s result done)).count .enqueueUnlock = 0 ∧
        (newActions s (handleVerifyStatus env s result done)).count .enqueueFail = 1) ∧
      (result ≠ "verify-disconnected" →
        (newActions s (handleVerifyStatus env s result done)).count .enqueueUnlock = 0 ∧
        (newActions s (handleVerifyStatus env s result done)).count .enqueueFail = 0)) := by
  rw [newActions_of_trace_eq (handleVerifyStatus_trace env s result done),
    statusActions_count_unlock, statusActions_count_fail]
  refine ⟨fun hs => ⟨?_, ?_⟩, fun hs => ⟨?_, ?_⟩⟩
  · rintro rfl
    have hm : matchResultOf "verify-match" = MATCH_MATCHED := by decide
    simp [hs, hm]
  · intro hne
    have hm : matchResultOf result ≠ MATCH_MATCHED :=
      fun h => hne ((matchResultOf_matched result).1 h)
    simp [hs, hm]
  · rintro rfl
    have hm : matchResultOf "verify-disconnected" = MATCH_DISCONNECTED := by decide
    simp [hs, hm]
  · intro hne
    have hm : matchResultOf result ≠ MATCH_DISCONNECTED :=
      fun h => hne ((matchResultOf_disconnected result).1 h)
    simp [hs, hm]

/-- C3 amended, at concrete inputs: a no-match in the awake example session and a
match in the sleeping one. -/
theorem handleVerifyStatus_report_accounting_witness :
    ((newActions exampleSession
        (handleVerifyStatus envOk exampleSession "verify-no-match" true)).count .enqueueUnlock = 0 ∧
      (newActions exampleSession
        (handleVerifyStatus envOk exampleSession "verify-no-match" true)).count .enqueueFail = 1) ∧
    ((newActions exampleSleeping
        (handleVerifyStatus envOk exampleSleeping "verify-match" true)).count .enqueueUnlock = 0 ∧
      (newActions exampleSleeping
        (handleVerifyStatus envOk exampleSleeping "verify-match" true)).count .enqueueFail = 0) :=
  ⟨((handleVerifyStatus_report_accounting envOk exampleSession "verify-no-match" true).1
      (by decide)).2 (by decide),
   ((handleVerifyStatus_report_accounting envOk exampleSleeping "verify-match" true).2
      (by decide)).2 (by decide)⟩

/-- C4. In every state (any message, retries, done, abort, sleeping or not) and for either
value of the done flag, handling "verify-disconnected" leaves `abort = true` and
`done = true`, sets the message to "Fingerprint device disconnected", and reports exactly
one failure and no success. -/
theorem handleVerifyStatus_disconnected_aborts (env : Env) (s : CFingerprint) (done : Bool) :
    (handleVerifyStatus env s "verify-disconnected" done).m_sDBUSState.abort = true ∧
    (handleVerifyStatus env s "verify-disconnected" done).m_sDBUSState.done = true ∧
    (handleVerifyStatus env s "verify-disconnected" done).m_sDBUSState.message
      = "Fingerprint device disconnected" ∧
    (newActions s (handleVerifyStatus env s "verify-disconnected" done)).count .enqueueFail = 1 ∧
    (newActions s (handleVerifyStatus env s "verify-disconnected" done)).count .enqueueUnlock = 0 := by
  rw [handleVerifyStatus_disconnected]
  simp [newActions]

theorem startPending_count_false (env : Env) (s : CFingerprint) :
    (startPending env s false).count (.verifyStart true) = 0 := by
  unfold startPending
  split
  · simp
  · split <;> simp

theorem startPending_count_true (env : Env) (s : CFingerprint) :
    (startPending env s true).count (.verifyStart true) ≤ 1 := by
  unfold startPending
  split
  · simp
  · split <;> simp

theorem onPreparingForSleepReply_retry (env : Env) (s : CFingerprint) (e : Option String)
    (v : Bool) :
    (onPreparingForSleepReply env s e v).m_sDBUSState.retries = s.m_sDBUSState.retries ∧
    retryStartsInFlight (onPreparingForSleepReply env s e v) = retryStartsInFlight s := by
  unfold onPreparingForSleepReply retryStartsInFlight
  cases e <;> cases v <;>
    simp [inhibitSleep, callAsync, List.count_append, startPending_count_false]

theorem onPrepareForSleep_retry (env : Env) (s : CFingerprint) (start : Bool) :
    (onPrepareForSleep env s start).m_sDBUSState.retries = s.m_sDBUSState.retries ∧
    retryStartsInFlight (onPrepareForSleep env s start) = retryStartsInFlight s := by
  unfold onPrepareForSleep retryStartsInFlight
  cases start <;>
    simp [inhibitSleep, callAsync, List.count_append, startPending_count_false]

theorem onClaimReply_retry (env : Env) (s : CFingerprint) (e : Option String) :
    (onClaimReply env s e).m_sDBUSState.retries = s.m_sDBUSState.retries ∧
    retryStartsInFlight (onClaimReply env s e) = retryStartsInFlight s := by
  unfold onClaimReply retryStartsInFlight
  cases e <;> simp [List.count_append, startPending_count_false]

theorem onInhibitReply_retry (s : CFingerprint) (e : Option String) (fd : Nat) :
    (onInhibitReply s e fd).m_sDBUSState.retries = s.m_sDBUSState.retries ∧
    retryStartsInFlight (onInhibitReply s e fd) = retryStartsInFlight s := by
  unfold onInhibitReply retryStartsInFlight
  cases e <;> simp

theorem onPropertiesChanged_retry (s : CFingerprint) (i : String) (fp : Option Bool) :
    (onPropertiesChanged s i fp).m_sDBUSState.retries = s.m_sDBUSState.retries ∧
    retryStartsInFlight (onPropertiesChanged s i fp) = retryStartsInFlight s := by
  unfold onPropertiesChanged retryStartsInFlight
  split
  · simp
  · split
    · simp
    · split <;> simp

theorem onVerifyStartReply_retry (s : CFingerprint) (r : Bool) (e : Option String) :
    (onVerifyStartReply s r e).m_sDBUSState.retries
      = s.m_sDBUSState.retries + (if r = true ∧ e = none then 1 else 0) ∧
    retryStartsInFlight (onVerifyStartReply s r e) = retryStartsInFlight s := by
  unfold onVerifyStartReply retryStartsInFlight
  cases e <;> cases r <;> simp

theorem handleVerifyStatus_retry (env : Env) (s : CFingerprint) (result : String)
    (done : Bool) :
    (handleVerifyStatus env s result done).m_sDBUSState.retries = s.m_sDBUSState.retries ∧
    retryStartsInFlight (handleVerifyStatus env s result done) ≤
      retryStartsInFlight s +
        (if result = "verify-no-match" ∧ s.m_sDBUSState.retries < 3 then 1 else 0) := by
  refine ⟨(handleVerifyStatus_fields env s result done).1, ?_⟩
  unfold retryStartsInFlight
  rw [handleVerifyStatus_pending, List.count_append]
  split
  · simp
  · split
    · rename_i h
      have h1 := (matchResultOf_no_match result).1 h.1
      have := startPending_count_true env s
      simp [h1, h.2]
      omega
    · simp

theorem erase_retry_of_ne (s : CFingerprint) (c : AsyncCall) (h : c ≠ .verifyStart true) :
    retryStartsInFlight { s with pending := s.pending.erase c } = retryStartsInFlight s := by
  unfold retryStartsInFlight
  exact List.count_erase_of_ne (Ne.symm h) _

theorem deliver_retry (env : Env) (s : CFingerprint) (ev : Event) :
    s.m_sDBUSState.retries ≤ (deliver env s ev).m_sDBUSState.retries ∧
    (¬ (isNoMatch ev = true ∧ 0 < retryStartsInFlight s) →
      s.m_sDBUSState.retries + retryStartsInFlight s ≤ 3 →
      (deliver env s ev).m_sDBUSState.retries + retryStartsInFlight (deliver env s ev) ≤ 3) := by
  cases ev with
  | preparingForSleepReply e v =>
    simp only [deliver, onReply]
    split
    · have h := onPreparingForSleepReply_retry env
        { s with pending := s.pending.erase .getPreparingForSleep } e v
      rw [h.1, h.2, erase_retry_of_ne s _ (by simp)]
      exact ⟨le_refl _, fun _ h => h⟩
    · exact ⟨le_refl _, fun _ h => h⟩
  | prepareForSleep start =>
    simp only [deliver]
    have h := onPrepareForSleep_retry env s start
    rw [h.1, h.2]
    exact ⟨le_refl _, fun _ h => h⟩
  | inhibitReply e fd =>
    simp only [deliver, onReply]
    split
    · have h := onInhibitReply_retry { s with pending := s.pending.erase .inhibit } e fd
      rw [h.1, h.2, erase_retry_of_ne s _ (by simp)]
      exact ⟨le_refl _, fun _ h => h⟩
    · exact ⟨le_refl _, fun _ h => h⟩
  | claimReply e =>
    simp only [deliver, onReply]
    split
    · have h := onClaimReply_retry env { s with pending := s.pending.erase .claim } e
      rw [h.1, h.2, erase_retry_of_ne s _ (by simp)]
      exact ⟨le_refl _, fun _ h => h⟩
    · exact ⟨le_refl _, fun _ h => h⟩
  | verifyStartReply r e =>
    simp only [deliver, onReply]
    split
    · rename_i hmem
      have h := onVerifyStartReply_retry
        { s with pending := s.pending.erase (.verifyStart r) } r e
      rw [h.1, h.2]
      cases r with
      | false =>
        rw [erase_retry_of_ne s _ (by simp)]
        simp
      | true =>
        have hc : retryStartsInFlight { s with pending := s.pending.erase (.verifyStart true) }
            = retryStartsInFlight s - 1 := by
          unfold retryStartsInFlight
          exact List.count_erase_self _ _
        have hpos : 0 < retryStartsInFlight s := List.count_pos_iff.2 hmem
        rw [hc]
        constructor
        · simp
        · intro _ h3
          simp only
          split <;> omega
    · exact ⟨le_refl _, fun _ h => h⟩
  | verifyFingerSelected f =>
    simp only [deliver]
    exact ⟨le_refl _, fun _ h => h⟩
  | verifyStatus result done =>
    simp only [deliver]
    split
    · have h := handleVerifyStatus_retry env s result done
      rw [h.1]
      refine ⟨le_refl _, fun hno h3 => ?_⟩
      have h2 := h.2
      split at h2
      · rename_i hc
        have : retryStartsInFlight s = 0 := by
          by_contra hne
          exact hno ⟨by simp [isNoMatch, hc.1], Nat.pos_of_ne_zero hne⟩
        omega
      · omega
    · exact ⟨le_refl _, fun _ h => h⟩
  | propertiesChanged i fp =>
    simp only [deliver]
    split
    · have h := onPropertiesChanged_retry s i fp
      rw [h.1, h.2]
      exact ⟨le_refl _, fun _ h => h⟩
    · exact ⟨le_refl _, fun _ h => h⟩

theorem run_append (s : CFingerprint) (a b : List (Env × Event)) :
    run s (a ++ b) = run (run s a) b := by
  induction a generalizing s with
  | nil => rfl
  | cons e a ih =>
    obtain ⟨env, ev⟩ := e
    simp only [List.cons_append, run]
    exact ih _

theorem run_retries_mono (s : CFingerprint) (evs : List (Env × Event)) :
    s.m_sDBUSState.retries ≤ (run s evs).m_sDBUSState.retries := by
  induction evs generalizing s with
  | nil => exact le_refl _
  | cons e rest ih =>
    obtain ⟨env, ev⟩ := e
    exact le_trans (deliver_retry env s ev).1 (ih _)

theorem orderly_take (s : CFingerprint) (evs : List (Env × Event)) (n : Nat)
    (h : orderly s evs = true) : orderly s (evs.take n) = true := by
  induction evs generalizing s n with
  | nil => simp [orderly]
  | cons e rest ih =>
    obtain ⟨env, ev⟩ := e
    cases n with
    | zero => simp [orderly]
    | succ n =>
      simp only [List.take_succ_cons, orderly, Bool.and_eq_true] at h ⊢
      exact ⟨h.1, ih _ n h.2⟩

theorem run_retry_invariant (s : CFingerprint) (evs : List (Env × Event))
    (ho : orderly s evs = true)
    (h3 : s.m_sDBUSState.retries + retryStartsInFlight s ≤ 3) :
    (run s evs).m_sDBUSState.retries + retryStartsInFlight (run s evs) ≤ 3 := by
  induction evs generalizing s with
  | nil => exact h3
  | cons e rest ih =>
    obtain ⟨env, ev⟩ := e
    simp only [orderly, Bool.and_eq_true, Bool.not_eq_true', Bool.and_eq_false_imp,
      decide_eq_false_iff_not] at ho
    refine ih _ ho.2 ((deliver_retry env s ev).2 ?_ h3)
    rintro ⟨h1, h2⟩
    exact ho.1 h1 h2

theorem handleVerifyStatus_no_match_capped (env : Env) (s : CFingerprint) (done : Bool)
    (hs : s.m_sDBUSState.sleeping = false) (h3 : 3 ≤ s.m_sDBUSState.retries) :
    handleVerifyStatus env s "verify-no-match" done =
      { s with
        m_sDBUSState := { s.m_sDBUSState with
          message := "Fingerprint auth disabled (too many failed attempts)"
          done := done || s.m_sDBUSState.abort || s.m_sDBUSState.done }
        trace := s.trace ++ [.postActivity] ++ stopActions s ++ [.enqueueFail] } := by
  have hm : matchResultOf "verify-no-match" = MATCH_NO_MATCH := by decide
  obtain ⟨⟨m, dv, il, ab, dn, rt, sl⟩, rd, pr, pe, tr⟩ := s
  simp only at hs h3
  subst hs
  cases dv <;> cases done <;> cases ab <;> cases dn <;>
    simp [handleVerifyStatus, handleSwitch, stopVerify_snd, stopActions, emit, setMessage, hm, h3]

theorem handleVerifyStatus_no_match_retry (env : Env) (s : CFingerprint) (done : Bool)
    (hs : s.m_sDBUSState.sleeping = false) (hd : s.m_sDBUSState.device = true)
    (h3 : s.m_sDBUSState.retries < 3) :
    handleVerifyStatus env s "verify-no-match" done =
      { s with
        m_sDBUSState := { s.m_sDBUSState with
          message := "Fingerprint not matched"
          done := s.m_sDBUSState.abort || s.m_sDBUSState.done }
        pending := s.pending ++ [.verifyStart true]
        trace := s.trace ++
          [.postActivity, .callVerifyStop, .callVerifyStart true, .enqueueFail] } := by
  have hm : matchResultOf "verify-no-match" = MATCH_NO_MATCH := by decide
  obtain ⟨⟨m, dv, il, ab, dn, rt, sl⟩, rd, pr, pe, tr⟩ := s
  simp only at hs h3 hd
  subst hs hd
  have h3' : ¬ 3 ≤ rt := by omega
  cases done <;> cases ab <;> cases dn <;>
    simp [handleVerifyStatus, handleSwitch, stopVerify_snd, startVerify, callAsync, emit,
      setMessage, hm, h3, h3']

theorem take_succ_run (s : CFingerprint) (evs : List (Env × Event)) (n : Nat) :
    run s (evs.take (n + 1)) = run (run s (evs.take n)) ((evs.drop n).take 1) := by
  rw [List.take_add, run_append]

/-! ## Retry accounting -/

/-- C5, as the spec states it, fails: after a regular start-up (retries = 0), four
"verify-no-match" signals handled before any retry `VerifyStart` reply, followed by the
four successful replies, leave `retries = 4`. -/
theorem retries_bound_counterexample :
    (run (init newSession) startup).m_sDBUSState.retries = 0 ∧
    (run (init newSession) (startup ++ overrun)).m_sDBUSState.retries = 4 ∧
    ¬ (run (init newSession) (startup ++ overrun)).m_sDBUSState.retries ≤ 3 := by
  decide

/-- C5, amended. Along every input sequence `retries` never decreases. Starting from
`retries = 0` with no retry `VerifyStart` in flight, along every input sequence in which
no "verify-no-match" is delivered while the reply to a retry `VerifyStart` is outstanding,
`retries` never exceeds 3. A "verify-no-match" handled in a non-sleeping state with
`retries >= 3` sets the message "Fingerprint auth disabled (too many failed attempts)",
leaves the pending calls as they are and issues no `VerifyStart`. -/
theorem retries_monotone_and_bounded (s : CFingerprint) (evs : List (Env × Event)) :
    (∀ n, (run s (evs.take n)).m_sDBUSState.retries
        ≤ (run s (evs.take (n + 1))).m_sDBUSState.retries) ∧
    (s.m_sDBUSState.retries = 0 → retryStartsInFlight s = 0 → orderly s evs = true →
      ∀ n, (run s (evs.take n)).m_sDBUSState.retries ≤ 3) ∧
    (∀ env done, s.m_sDBUSState.sleeping = false → 3 ≤ s.m_sDBUSState.retries →
      (handleVerifyStatus env s "verify-no-match" done).m_sDBUSState.message
        = "Fingerprint auth disabled (too many failed attempts)" ∧
      (handleVerifyStatus env s "verify-no-match" done).pending = s.pending ∧
      ∀ r, Action.callVerifyStart r ∉
        newActions s (handleVerifyStatus env s "verify-no-match" done)) := by
  refine ⟨fun n => ?_, fun h0 hp ho n => ?_, fun env done hs h3 => ?_⟩
  · rw [take_succ_run]
    exact run_retries_mono _ _
  · have h := run_retry_invariant s (evs.take n) (orderly_take s evs n ho) (by omega)
    omega
  · rw [handleVerifyStatus_no_match_capped env s done hs h3]
    refine ⟨rfl, rfl, fun r => ?_⟩
    simp only [newActions, List.append_assoc, List.drop_left]
    unfold stopActions
    split <;> simp

/-- C5 amended, at a concrete input: the regular start-up followed by four no-match signals,
each retry reply arriving before the next signal. -/
theorem retries_monotone_and_bounded_witness :
    (init newSession).m_sDBUSState.retries = 0 ∧
    retryStartsInFlight (init newSession) = 0 ∧
    orderly (init newSession) (startup ++ fourNoMatch envOk true true true true) = true ∧
    (run (init newSession)
      ((startup ++ fourNoMatch envOk true true true true).take 11)).m_sDBUSState.retries ≤ 3 :=
  ⟨by decide, by decide, by decide,
   (retries_monotone_and_bounded (init newSession)
      (startup ++ fourNoMatch envOk true true true true)).2.1
      (by decide) (by decide) (by decide) 11⟩

theorem retry_round (env env2 : Env) (s : CFingerprint) (done : Bool)
    (hs : s.m_sDBUSState.sleeping = false) (hd : s.m_sDBUSState.device = true)
    (h3 : s.m_sDBUSState.retries < 3) :
    run s [(env, .verifyStatus "verify-no-match" done), (env2, .verifyStartReply true none)] =
      { s with
        m_sDBUSState := { s.m_sDBUSState with
          message := RETRY_MESSAGE
          retries := s.m_sDBUSState.retries + 1
          done := s.m_sDBUSState.abort || s.m_sDBUSState.done }
        pending := (s.pending ++ [AsyncCall.verifyStart true]).erase (.verifyStart true)
        trace := s.trace ++
          [.postActivity, .callVerifyStop, .callVerifyStart true, .enqueueFail,
           .enqueueForceUpdateTimers] } := by
  simp only [run, deliver, hd, if_true, handleVerifyStatus_no_match_retry env s done hs hd h3]
  simp [onReply, onVerifyStartReply, emit]

/-- C6, as the spec states it, fails: after a regular start-up, four "verify-no-match"
signals whose last one carries done = false end with the disabled message but with
`done = false`. -/
theorem four_no_match_counterexample :
    (run (run (init newSession) startup)
      (fourNoMatch envOk true true true false)).m_sDBUSState.message
        = "Fingerprint auth disabled (too many failed attempts)" ∧
    (run (run (init newSession) startup)
      (fourNoMatch envOk true true true false)).m_sDBUSState.done = false := by
  decide

/-- C6, amended. From a non-sleeping session with a device proxy, `retries = 0`,
`done = false` and `abort = false`, four "verify-no-match" signals in a row, each retry
`VerifyStart` reply reporting success before the next signal, issue exactly 3 retry
`VerifyStart` calls (and no other `VerifyStart`), end with `retries = 3` and the message
"Fingerprint auth disabled (too many failed attempts)", report no success and four
failures; `done` ends equal to the done flag carried by the fourth signal. -/
theorem four_no_match_disables (env : Env) (s : CFingerprint) (d1 d2 d3 d4 : Bool)
    (hdev : s.m_sDBUSState.device = true) (hs : s.m_sDBUSState.sleeping = false)
    (hr : s.m_sDBUSState.retries = 0) (hd : s.m_sDBUSState.done = false)
    (ha : s.m_sDBUSState.abort = false) :
    (newActions s (run s (fourNoMatch env d1 d2 d3 d4))).count (.callVerifyStart true) = 3 ∧
    (newActions s (run s (fourNoMatch env d1 d2 d3 d4))).count (.callVerifyStart false) = 0 ∧
    (run s (fourNoMatch env d1 d2 d3 d4)).m_sDBUSState.retries = 3 ∧
    (run s (fourNoMatch env d1 d2 d3 d4)).m_sDBUSState.message
      = "Fingerprint auth disabled (too many failed attempts)" ∧
    (run s (fourNoMatch env d1 d2 d3 d4)).m_sDBUSState.done = d4 ∧
    (newActions s (run s (fourNoMatch env d1 d2 d3 d4))).count .enqueueUnlock = 0 ∧
    (newActions s (run s (fourNoMatch env d1 d2 d3 d4))).count .enqueueFail = 4 := by
  have split4 : fourNoMatch env d1 d2 d3 d4 =
      [(env, .verifyStatus "verify-no-match" d1), (env, .verifyStartReply true none)] ++
      ([(env, .verifyStatus "verify-no-match" d2), (env, .verifyStartReply true none)] ++
      ([(env, .verifyStatus "verify-no-match" d3), (env, .verifyStartReply true none)] ++
       [(env, .verifyStatus "verify-no-match" d4)])) := rfl
  have round : ∀ (u : CFingerprint) (d : Bool), u.m_sDBUSState.sleeping = false →
      u.m_sDBUSState.device = true → u.m_sDBUSState.retries < 3 →
      (run u [(env, .verifyStatus "verify-no-match" d),
          (env, .verifyStartReply true none)]).m_sDBUSState.sleeping = false ∧
      (run u [(env, .verifyStatus "verify-no-match" d),
          (env, .verifyStartReply true none)]).m_sDBUSState.device = true ∧
      (run u [(env, .verifyStatus "verify-no-match" d),
          (env, .verifyStartReply true none)]).m_sDBUSState.retries
        = u.m_sDBUSState.retries + 1 ∧
      (run u [(env, .verifyStatus "verify-no-match" d),
          (env, .verifyStartReply true none)]).m_sDBUSState.abort = u.m_sDBUSState.abort ∧
      (run u [(env, .verifyStatus "verify-no-match" d),
          (env, .verifyStartReply true none)]).m_sDBUSState.done
        = (u.m_sDBUSState.abort || u.m_sDBUSState.done) ∧
      (run u [(env, .verifyStatus "verify-no-match" d),
          (env, .verifyStartReply true none)]).trace
        = u.trace ++ [.postActivity, .callVerifyStop, .callVerifyStart true, .enqueueFail,
            .enqueueForceUpdateTimers] := by
    intro u d h1 h2 h3
    rw [retry_round env env u d h1 h2 h3]
    exact ⟨h1, h2, rfl, rfl, rfl, rfl⟩
  rw [split4, run_append, run_append, run_append]
  obtain ⟨a1, a2, a3, a4, a5, a6⟩ := round s d1 hs hdev (by omega)
  generalize run s [(env, .verifyStatus "verify-no-match" d1),
    (env, .verifyStartReply true none)] = s1 at a1 a2 a3 a4 a5 a6 ⊢
  obtain ⟨b1, b2, b3, b4, b5, b6⟩ := round s1 d2 a1 a2 (by omega)
  generalize run s1 [(env, .verifyStatus "verify-no-match" d2),
    (env, .verifyStartReply true none)] = s2 at b1 b2 b3 b4 b5 b6 ⊢
  obtain ⟨c1, c2, c3, c4, c5, c6⟩ := round s2 d3 b1 b2 (by omega)
  generalize run s2 [(env, .verifyStatus "verify-no-match" d3),
    (env, .verifyStartReply true none)] = s3 at c1 c2 c3 c4 c5 c6 ⊢
  simp only [run, deliver, c2, if_true]
  rw [handleVerifyStatus_no_match_capped env s3 d4 c1 (by omega)]
  simp [newActions, stopActions, c2, c3, c4, c5, c6, b3, b4, b5, b6, a3, a4, a5, a6, hd, ha, hr]

/-- C6 amended, at a concrete input: the example session, every signal carrying done = true. -/
theorem four_no_match_disables_witness :
    (run exampleSession (fourNoMatch envOk true true true true)).m_sDBUSState.done = true ∧
    (newActions exampleSession
      (run exampleSession (fourNoMatch envOk true true true true))).count .enqueueFail = 4 :=
  ⟨(four_no_match_disables envOk exampleSession true true true true
      (by decide) (by decide) (by decide) (by decide) (by decide)).2.2.2.2.1,
   (four_no_match_disables envOk exampleSession true true true true
      (by decide) (by decide) (by decide) (by decide) (by decide)).2.2.2.2.2.2⟩

theorem deliver_flags (env : Env) (s : CFingerprint) (ev : Event) :
    (s.m_sDBUSState.abort = true → (deliver env s ev).m_sDBUSState.abort = true) ∧
    (s.m_sDBUSState.done = true → (deliver env s ev).m_sDBUSState.done = true) := by
  cases ev with
  | preparingForSleepReply e v =>
    cases e <;> cases v <;>
      simp only [deliver, onReply, onPreparingForSleepReply] <;> split <;> simp [inhibitSleep, callAsync]
  | prepareForSleep start =>
    cases start <;> simp [deliver, onPrepareForSleep, inhibitSleep, callAsync]
  | inhibitReply e fd =>
    cases e <;> simp only [deliver, onReply, onInhibitReply] <;> split <;> simp
  | claimReply e =>
    cases e <;> simp only [deliver, onReply, onClaimReply] <;> split <;> simp
  | verifyStartReply r e =>
    cases e <;> cases r <;> simp only [deliver, onReply, onVerifyStartReply] <;> split <;> simp
  | verifyFingerSelected f => simp [deliver]
  | verifyStatus result done =>
    simp only [deliver]
    split
    · exact ⟨(handleVerifyStatus_fields env s result done).2.2.2.2,
        (handleVerifyStatus_fields env s result done).2.2.2.1⟩
    · simp
  | propertiesChanged i fp =>
    simp only [deliver, onPropertiesChanged]
    split
    · split
      · simp
      · split
        · simp
        · split <;> simp
    · simp

theorem run_flags (s : CFingerprint) (evs : List (Env × Event)) :
    (s.m_sDBUSState.abort = true → (run s evs).m_sDBUSState.abort = true) ∧
    (s.m_sDBUSState.done = true → (run s evs).m_sDBUSState.done = true) := by
  induction evs generalizing s with
  | nil => exact ⟨id, id⟩
  | cons e rest ih =>
    obtain ⟨env, ev⟩ := e
    exact ⟨fun h => (ih _).1 ((deliver_flags env s ev).1 h),
      fun h => (ih _).2 ((deliver_flags env s ev).2 h)⟩

/-! ## Abort -/

/-- C7, as the spec states it, fails: after a regular start-up and a "verify-disconnected"
signal `abort` is true, yet the next wake signal issues `Inhibit` and `VerifyStart`. -/
theorem abort_final_counterexample :
    abortedSession.m_sDBUSState.abort = true ∧
    newActions abortedSession (deliver envOk abortedSession (.prepareForSleep false))
      = [Action.callInhibit, Action.callVerifyStart false] := by
  decide

/-- C7, amended. Once `abort` is true it stays true along every later input sequence (and
so does `done`), and `terminate` then issues no `Release`. Abort does not gate
`startVerify`: with a device proxy, a wake signal issues `Inhibit` and `VerifyStart`; a
"verify-no-match" handled awake with `retries < 3` issues a retry `VerifyStart`; and a
successful `Claim` reply issues `VerifyStart`. -/
theorem abort_persists_without_gating_start (env : Env) (s : CFingerprint)
    (ha : s.m_sDBUSState.abort = true) :
    (∀ evs, (run s evs).m_sDBUSState.abort = true) ∧
    (s.m_sDBUSState.done = true → ∀ evs, (run s evs).m_sDBUSState.done = true) ∧
    terminate env s = s ∧
    (s.m_sDBUSState.device = true →
      newActions s (deliver env s (.prepareForSleep false))
        = [Action.callInhibit, Action.callVerifyStart false]) ∧
    (s.m_sDBUSState.device = true → s.m_sDBUSState.sleeping = false →
      s.m_sDBUSState.retries < 3 → ∀ done,
      newActions s (deliver env s (.verifyStatus "verify-no-match" done))
        = [Action.postActivity, Action.callVerifyStop, Action.callVerifyStart true,
           Action.enqueueFail]) ∧
    (s.m_sDBUSState.device = true → AsyncCall.claim ∈ s.pending →
      newActions s (deliver env s (.claimReply none)) = [Action.callVerifyStart false]) := by
  refine ⟨fun evs => (run_flags s evs).1 ha, fun hd evs => (run_flags s evs).2 hd, ?_,
    fun hdev => ?_, fun hdev hs h3 done => ?_, fun hdev hc => ?_⟩
  · simp [terminate, ha]
  · apply newActions_of_trace_eq
    simp [deliver, onPrepareForSleep, inhibitSleep, callAsync, startActions, hdev]
  · apply newActions_of_trace_eq
    simp only [deliver, hdev, if_true]
    rw [handleVerifyStatus_no_match_retry env s done hs hdev h3]
  · apply newActions_of_trace_eq
    simp [deliver, onReply, onClaimReply, hc, startActions, hdev]

/-- C7 amended, at a concrete input: the aborted session receives a wake signal. -/
theorem abort_persists_without_gating_start_witness :
    abortedSession.m_sDBUSState.abort = true ∧
    (run abortedSession [(envOk, .prepareForSleep false)]).m_sDBUSState.abort = true ∧
    terminate envOk abortedSession = abortedSession :=
  ⟨by decide,
   (abort_persists_without_gating_start envOk abortedSession (by decide)).1
      [(envOk, .prepareForSleep false)],
   (abort_persists_without_gating_start envOk abortedSession (by decide)).2.2.1⟩

theorem deliver_inhibitor (env : Env) (s : CFingerprint) (ev : Event)
    (hl : lateReply s ev = false)
    (hj : s.m_sDBUSState.sleeping = true → s.m_sDBUSState.inhibitLock = none) :
    (deliver env s ev).m_sDBUSState.sleeping = true →
      (deliver env s ev).m_sDBUSState.inhibitLock = none := by
  cases ev with
  | preparingForSleepReply e v =>
    cases e <;> cases v <;>
      simp only [deliver, onReply, onPreparingForSleepReply] <;> split <;>
      simp_all [inhibitSleep, callAsync, lateReply]
  | prepareForSleep start =>
    cases start <;> simp [deliver, onPrepareForSleep, inhibitSleep, callAsync]
  | inhibitReply e fd =>
    cases e <;> simp only [deliver, onReply, onInhibitReply] <;> split <;>
      simp_all [lateReply]
  | claimReply e =>
    cases e <;> simp only [deliver, onReply, onClaimReply] <;> split <;> simp_all
  | verifyStartReply r e =>
    cases e <;> cases r <;> simp only [deliver, onReply, onVerifyStartReply] <;> split <;>
      simp_all
  | verifyFingerSelected f => simpa [deliver] using hj
  | verifyStatus result done =>
    simp only [deliver]
    split
    · rw [(handleVerifyStatus_fields env s result done).2.1,
        (handleVerifyStatus_fields env s result done).2.2.1]
      exact hj
    · exact hj
  | propertiesChanged i fp =>
    simp only [deliver, onPropertiesChanged]
    split
    · split
      · exact hj
      · split
        · exact hj
        · split <;> simpa using hj
    · exact hj

theorem run_inhibitor (s : CFingerprint) (evs : List (Env × Event))
    (ht : timely s evs = true)
    (hj : s.m_sDBUSState.sleeping = true → s.m_sDBUSState.inhibitLock = none) :
    (run s evs).m_sDBUSState.sleeping = true → (run s evs).m_sDBUSState.inhibitLock = none := by
  induction evs generalizing s with
  | nil => exact hj
  | cons e rest ih =>
    obtain ⟨env, ev⟩ := e
    simp only [timely, Bool.and_eq_true, Bool.not_eq_true'] at ht
    exact ih _ ht.2 (deliver_inhibitor env s ev ht.1 hj)

/-! ## Sleep inhibitor -/

/-- C8, as the spec states it, fails: the `PreparingForSleep` read at `init` returns false,
sleep begins before the `Inhibit` reply, and the reply arrives during sleep; the inhibitor
is then held while `sleeping` is true. -/
theorem inhibitor_while_sleeping_counterexample :
    (run (init newSession) sleepRace).m_sDBUSState.sleeping = true ∧
    (run (init newSession) sleepRace).m_sDBUSState.inhibitLock = some 7 := by
  decide

/-- C8, amended. Right after a sleep-begin signal `sleeping` is true and the inhibitor is
absent. If the inhibitor is absent whenever sleeping in the starting state, it is absent
whenever sleeping after every input sequence in which no successful `Inhibit` reply is
delivered during sleep and no `PreparingForSleep` value of true is delivered while the
inhibitor is held. After a wake signal followed by a successful `Inhibit` reply, and
after the `init` read returning false followed by a successful `Inhibit` reply, the
session is awake and holds the granted inhibitor. -/
theorem inhibitor_versus_sleep (s : CFingerprint) (evs : List (Env × Event)) :
    (∀ env, (deliver env s (.prepareForSleep true)).m_sDBUSState.sleeping = true ∧
      (deliver env s (.prepareForSleep true)).m_sDBUSState.inhibitLock = none) ∧
    ((s.m_sDBUSState.sleeping = true → s.m_sDBUSState.inhibitLock = none) →
      timely s evs = true →
      (run s evs).m_sDBUSState.sleeping = true → (run s evs).m_sDBUSState.inhibitLock = none) ∧
    (∀ env env2 fd,
      (run s [(env, .prepareForSleep false),
          (env2, .inhibitReply none fd)]).m_sDBUSState.sleeping = false ∧
      (run s [(env, .prepareForSleep false),
          (env2, .inhibitReply none fd)]).m_sDBUSState.inhibitLock = some fd) ∧
    (AsyncCall.getPreparingForSleep ∈ s.pending → ∀ env env2 fd,
      (run s [(env, .preparingForSleepReply none false),
          (env2, .inhibitReply none fd)]).m_sDBUSState.sleeping = false ∧
      (run s [(env, .preparingForSleepReply none false),
          (env2, .inhibitReply none fd)]).m_sDBUSState.inhibitLock = some fd) := by
  refine ⟨fun env => ?_, fun hj ht => run_inhibitor s evs ht hj, fun env env2 fd => ?_,
    fun hq env env2 fd => ?_⟩
  · simp [deliver, onPrepareForSleep]
  · simp [run, deliver, onPrepareForSleep, onReply, onInhibitReply, inhibitSleep, callAsync]
  · simp [run, deliver, onPreparingForSleepReply, onReply, onInhibitReply, inhibitSleep,
      callAsync, hq]

/-- C8 amended, at a concrete input: start-up, sleep, wake with the `Inhibit` reply (fd 9)
arriving at once, then sleep again. -/
theorem inhibitor_versus_sleep_witness :
    timely (init newSession) (startup ++ sleepCycle) = true ∧
    (run (init newSession) (startup ++ sleepCycle)).m_sDBUSState.sleeping = true ∧
    (run (init newSession) (startup ++ sleepCycle)).m_sDBUSState.inhibitLock = none :=
  have ht : timely (init newSession) (startup ++ sleepCycle) = true := by decide
  have hs : (run (init newSession) (startup ++ sleepCycle)).m_sDBUSState.sleeping = true := by
    decide
  ⟨ht, hs,
   (inhibitor_versus_sleep (init newSession) (startup ++ sleepCycle)).2.1
      (fun _ => rfl) ht hs⟩

theorem startVerify_actions_ne_nil (env : Env) (s : CFingerprint) (r : Bool) :
    newActions s (startVerify env s r) ≠ [] := by
  rw [newActions_of_trace_eq (startVerify_trace env s r)]
  unfold startActions
  split
  · simp
  · split <;> simp

/-! ## Claim failure -/

/-- C9, as the spec states it, fails: `startVerify` on a new session finds the device and
issues `Claim`; after the `Claim` reply reports an error the device proxy is still
present, and the next `startVerify` issues `VerifyStart` without discovery or `Claim`. -/
theorem claim_failure_counterexample :
    newSession.m_sDBUSState.device = false ∧
    (deliver envOk (startVerify envOk newSession false)
      (.claimReply (some "denied"))).m_sDBUSState.device = true ∧
    newActions
      (deliver envOk (startVerify envOk newSession false) (.claimReply (some "denied")))
      (startVerify envOk
        (deliver envOk (startVerify envOk newSession false) (.claimReply (some "denied")))
        false)
      = [Action.callVerifyStart false] := by
  decide

/-- C9, amended. When `startVerify` is called with no device proxy, discovery succeeds and
the `Claim` reply carries an error, then only `GetDefaultDevice` and `Claim` have been
issued (no `VerifyStart`), the message is unchanged, the device proxy is present
afterwards, and the next `startVerify` call issues `VerifyStart` and nothing else. -/
theorem claim_failure_keeps_proxy (env env2 env3 : Env) (s : CFingerprint) (r r2 : Bool)
    (what : String) (hd : s.m_sDBUSState.device = false)
    (hok : env.getDefaultDeviceOk = true) :
    newActions s (deliver env2 (startVerify env s r) (.claimReply (some what)))
      = [Action.callGetDefaultDevice, Action.callClaim] ∧
    (deliver env2 (startVerify env s r) (.claimReply (some what))).m_sDBUSState.message
      = s.m_sDBUSState.message ∧
    (deliver env2 (startVerify env s r) (.claimReply (some what))).m_sDBUSState.device
      = true ∧
    newActions (deliver env2 (startVerify env s r) (.claimReply (some what)))
      (startVerify env3 (deliver env2 (startVerify env s r) (.claimReply (some what))) r2)
      = [Action.callVerifyStart r2] := by
  have h : deliver env2 (startVerify env s r) (.claimReply (some what)) =
      { s with
        m_sDBUSState := { s.m_sDBUSState with device := true }
        pending := (s.pending ++ [AsyncCall.claim]).erase .claim
        trace := s.trace ++ [.callGetDefaultDevice, .callClaim] } := by
    obtain ⟨⟨m, dv, il, ab, dn, rt, sl⟩, rd, pr, pe, tr⟩ := s
    simp only at hd
    subst hd
    simp [deliver, onReply, onClaimReply, startVerify, createDeviceProxy, claimDevice,
      callAsync, emit, hok]
  rw [h]
  refine ⟨newActions_of_trace_eq rfl, rfl, rfl, ?_⟩
  apply newActions_of_trace_eq
  simp [startActions]

/-- C9 amended, at a concrete input: a new session, every bus call but `Claim` succeeding. -/
theorem claim_failure_keeps_proxy_witness :
    newSession.m_sDBUSState.device = false ∧ envOk.getDefaultDeviceOk = true ∧
    (deliver envOk (startVerify envOk newSession false)
      (.claimReply (some "denied"))).m_sDBUSState.device = true :=
  ⟨by decide, by decide,
   (claim_failure_keeps_proxy envOk envOk envOk newSession false false "denied"
      (by decide) (by decide)).2.2.1⟩

/-! ## Start-up -/

/-- C10, as the spec states it, fails: when the reply to the `PreparingForSleep` read at
`init` carries an error, nothing at all is done and no reply is awaited any more: neither
`Inhibit` nor any action of `startVerify` is issued (had `startVerify` been invoked, it
would have issued `GetDefaultDevice` and `Claim`). -/
theorem degraded_start_counterexample :
    newActions (init newSession)
      (deliver envOk (init newSession) (.preparingForSleepReply (some "timeout") false)) = [] ∧
    (deliver envOk (init newSession)
      (.preparingForSleepReply (some "timeout") false)).pending = [] ∧
    newActions (init newSession) (startVerify envOk (init newSession) false)
      = [Action.callGetDefaultDevice, Action.callClaim] := by
  decide

/-- C10, amended. With the `PreparingForSleep` read of `init` outstanding: if its reply
carries an error, the state is unchanged and nothing is started (no `Inhibit`, no
`startVerify`, whose actions are never empty); if it succeeds with sleeping = true,
`sleeping` is set and nothing is started; if it succeeds with sleeping = false, `Inhibit`
is requested and `startVerify` runs (`VerifyStart` with a device proxy, discovery and
`Claim` otherwise); and if the `Inhibit` reply then carries an error, the inhibitor is
left as it was, the verification start already issued standing. -/
theorem init_reply_outcomes (env env2 : Env) (s : CFingerprint) (what : String) (v : Bool)
    (fd : Nat) (hq : AsyncCall.getPreparingForSleep ∈ s.pending) :
    deliver env s (.preparingForSleepReply (some what) v)
      = { s with pending := s.pending.erase .getPreparingForSleep } ∧
    (∀ r, newActions s (startVerify env s r) ≠ []) ∧
    deliver env s (.preparingForSleepReply none true)
      = { s with
          m_sDBUSState := { s.m_sDBUSState with sleeping := true }
          pending := s.pending.erase .getPreparingForSleep } ∧
    newActions s (deliver env s (.preparingForSleepReply none false))
      = Action.callInhibit ::
          (if s.m_sDBUSState.device then [Action.callVerifyStart false]
           else if env.getDefaultDeviceOk then [Action.callGetDefaultDevice, Action.callClaim]
           else [Action.callGetDefaultDevice]) ∧
    (deliver env s (.preparingForSleepReply none false)).m_sDBUSState.sleeping = false ∧
    (run s [(env, .preparingForSleepReply none false),
        (env2, .inhibitReply (some what) fd)]).m_sDBUSState.inhibitLock
      = s.m_sDBUSState.inhibitLock ∧
    newActions s (run s [(env, .preparingForSleepReply none false),
        (env2, .inhibitReply (some what) fd)])
      = newActions s (deliver env s (.preparingForSleepReply none false)) := by
  have hstart : (deliver env s (.preparingForSleepReply none false)).trace
      = s.trace ++ Action.callInhibit ::
          (if s.m_sDBUSState.device then [Action.callVerifyStart false]
           else if env.getDefaultDeviceOk then [Action.callGetDefaultDevice, Action.callClaim]
           else [Action.callGetDefaultDevice]) := by
    simp [deliver, onReply, onPreparingForSleepReply, inhibitSleep, callAsync, startActions, hq]
  refine ⟨?_, startVerify_actions_ne_nil env s, ?_, newActions_of_trace_eq hstart, ?_, ?_, ?_⟩
  · simp [deliver, onReply, onPreparingForSleepReply, hq]
  · simp [deliver, onReply, onPreparingForSleepReply, hq]
  · simp [deliver, onReply, onPreparingForSleepReply, inhibitSleep, callAsync, hq]
  · simp [run, deliver, onReply, onPreparingForSleepReply, onInhibitReply, inhibitSleep,
      callAsync, hq]
  · simp [run, deliver, onReply, onPreparingForSleepReply, onInhibitReply, inhibitSleep,
      callAsync, hq, newActions]

/-- C10 amended, at a concrete input: a new session after `init`, the read failing. -/
theorem init_reply_outcomes_witness :
    AsyncCall.getPreparingForSleep ∈ (init newSession).pending ∧
    deliver envOk (init newSession) (.preparingForSleepReply (some "timeout") false)
      = { init newSession with
          pending := (init newSession).pending.erase .getPreparingForSleep } :=
  ⟨by decide,
   (init_reply_outcomes envOk envOk (init newSession) "timeout" false 7 (by decide)).1⟩

end Hyprlock
